import Mathlib

/-!
Verification of the OpenCL/OpenGL interop layer.

Shallow embedding of the device-selection, program-building and per-frame
interop logic found in `examples/cxx-opencl/src/common/oclobject.cpp` and
`examples/cxx-opencl/src/OpenGLInterop.cpp`, together with theorems about
the behaviours documented for this layer.
-/

/-! ## OpenCL device-type constants (CL/cl.h) -/

def CL_DEVICE_TYPE_DEFAULT : Nat := 1
def CL_DEVICE_TYPE_CPU : Nat := 2
def CL_DEVICE_TYPE_GPU : Nat := 4
def CL_DEVICE_TYPE_ACCELERATOR : Nat := 8
def CL_DEVICE_TYPE_ALL : Nat := 0xFFFFFFFF

/-! ## `parseDeviceType` (oclobject.cpp lines 768-833)

The C++ loop scans `device_type_name`, splitting at every occurrence of
`'+'` or `'|'`; each token is matched against the recognized spellings and
its mask is OR-ed into the accumulator; an unrecognized token throws
`Error("Cannot recognize " + device_type_name + " as a device type")`. -/

/-- Split a character list at every occurrence of `'+'` or `'|'`,
producing exactly the pieces (empty pieces included) that the C++ loop
`for(pos=0,next=0; next != npos; pos=next+1){ next = find_first_of("+|",pos); ... }`
extracts with `substr`. -/
def splitSeps : List Char → List (List Char)
  | [] => [[]]
  | c :: rest =>
    if c = '+' ∨ c = '|' then [] :: splitSeps rest
    else
      match splitSeps rest with
      | [] => [[c]]
      | t :: ts => (c :: t) :: ts

/-- The mask for one recognized token of `parseDeviceType`, `none` for an
unrecognized token.  Mirrors the if-chains of oclobject.cpp:776-826. -/
def deviceTypeToken (name : String) : Option Nat :=
  if name = "all" ∨ name = "ALL" ∨ name = "CL_DEVICE_TYPE_ALL" then
    some CL_DEVICE_TYPE_ALL
  else if name = "default" ∨ name = "DEFAULT" ∨ name = "CL_DEVICE_TYPE_DEFAULT" then
    some CL_DEVICE_TYPE_DEFAULT
  else if name = "cpu" ∨ name = "CPU" ∨ name = "CL_DEVICE_TYPE_CPU" then
    some CL_DEVICE_TYPE_CPU
  else if name = "gpu" ∨ name = "GPU" ∨ name = "CL_DEVICE_TYPE_GPU" then
    some CL_DEVICE_TYPE_GPU
  else if name = "acc" ∨ name = "ACC" ∨ name = "accelerator" ∨
      name = "ACCELERATOR" ∨ name = "CL_DEVICE_TYPE_ACCELERATOR" then
    some CL_DEVICE_TYPE_ACCELERATOR
  else
    none

/-- Model of `parseDeviceType` (oclobject.cpp:768): fold the token masks together,
failing on the first unrecognized token.  The C++ `for` loop over
`find_first_of("+|")` visits exactly the pieces produced by splitting at
every `'+'` or `'|'` (including empty pieces). -/
def parseStep (device_type_name : String) (acc : Except String Nat)
    (tok : List Char) : Except String Nat :=
  match acc with
  | .error e => .error e
  | .ok t =>
    match deviceTypeToken (String.mk tok) with
    | some m => .ok (t ||| m)
    | none => .error ("Cannot recognize " ++ device_type_name ++ " as a device type")

def parseDeviceType (device_type_name : String) : Except String Nat :=
  (splitSeps device_type_name.data).foldl (parseStep device_type_name) (.ok 0)

example : parseDeviceType "cpu|gpu" = .ok 6 := by rfl
example : parseDeviceType "GPU" = .ok 4 := by rfl
example : parseDeviceType "bogus" =
    .error "Cannot recognize bogus as a device type" := by rfl

lemma foldl_parseStep_error (s e : String) : ∀ toks : List (List Char),
    toks.foldl (parseStep s) (.error e) = .error e
  | [] => rfl
  | _ :: toks => foldl_parseStep_error s e toks

lemma foldl_parseStep_unknown (s : String) : ∀ (toks : List (List Char)) (t : Nat),
    (∃ tok ∈ toks, deviceTypeToken (String.mk tok) = none) →
    toks.foldl (parseStep s) (.ok t) =
      .error ("Cannot recognize " ++ s ++ " as a device type")
  | [], _, h => absurd h (by simp)
  | tok :: toks, t, h => by
    rcases h with ⟨w, hw, hnone⟩
    rcases List.mem_cons.mp hw with rfl | hw
    · show (toks.foldl (parseStep s) (parseStep s (.ok t) w)) = _
      rw [show parseStep s (.ok t) w =
          .error ("Cannot recognize " ++ s ++ " as a device type") by
        unfold parseStep; rw [hnone]]
      exact foldl_parseStep_error s _ toks
    · show (toks.foldl (parseStep s) (parseStep s (.ok t) tok)) = _
      unfold parseStep
      cases hd : deviceTypeToken (String.mk tok) with
      | some m => exact foldl_parseStep_unknown s toks (t ||| m) ⟨w, hw, hnone⟩
      | none => exact foldl_parseStep_error s _ toks

/-- C7: `parseDeviceType` maps "cpu|gpu" to the bitwise union of the CPU
and GPU masks, treats the case variants "GPU" and "gpu" as equivalent
masks, and raises the parse error for any selector containing an
unrecognized token, such as "bogus". -/
theorem parseDeviceType_union_case_unknown
    (s : String)
    (h : ∃ tok ∈ splitSeps s.data, deviceTypeToken (String.mk tok) = none) :
    parseDeviceType "cpu|gpu" = .ok (CL_DEVICE_TYPE_CPU ||| CL_DEVICE_TYPE_GPU) ∧
    parseDeviceType "GPU" = .ok CL_DEVICE_TYPE_GPU ∧
    parseDeviceType "gpu" = .ok CL_DEVICE_TYPE_GPU ∧
    parseDeviceType s = .error ("Cannot recognize " ++ s ++ " as a device type") ∧
    parseDeviceType "bogus" = .error ("Cannot recognize bogus as a device type") :=
  ⟨rfl, rfl, rfl, foldl_parseStep_unknown s (splitSeps s.data) 0 h, rfl⟩

/-- Witness for C7 at the concrete unknown token "bogus". -/
theorem parseDeviceType_union_case_unknown_witness :
    parseDeviceType "bogus" = .error ("Cannot recognize bogus as a device type") :=
  (parseDeviceType_union_case_unknown "bogus"
    ⟨"bogus".data, by decide, by decide⟩).2.2.2.1

/-! ## Device and platform selection (oclobject.cpp lines 82-331)

Devices and platforms are modelled by their human-readable names; the
driver enumeration (`clGetDeviceIDs` filtered by the requested type mask)
is an input of the model.  `strcmp` on names is modelled as strict
lexicographic comparison of the character lists. -/

/-- Strict lexicographic order on names, the model of `strcmp(a,b) < 0`. -/
def nameLt (a b : String) : Prop := List.Lex (· < ·) a.data b.data

instance (a b : String) : Decidable (nameLt a b) :=
  inferInstanceAs (Decidable (List.Lex (· < ·) a.data b.data))

/-- Model of `device_comp` (oclobject.cpp:181-196): the comparator handed to
`std::sort`; it fetches both device names and returns
`strcmp(&name1[0], &name2[0]) > 0`, i.e. true when the first name is
lexicographically greater. -/
def device_comp (name1 name2 : String) : Bool := decide (nameLt name2 name1)

/-- One insertion step of a comparison sort driven by `device_comp`:
the incoming element is placed before the first element it compares
before (i.e. whose name is smaller). -/
def insertDevice (x : String) : List String → List String
  | [] => [x]
  | y :: ys => if device_comp x y then x :: y :: ys else y :: insertDevice x ys

/-- Model of `sort(devices.begin(), devices.end(), device_comp)`
(oclobject.cpp:235): a comparison sort under `device_comp`.  Since the
comparator is a strict total order on the (distinct) names, any conforming
`std::sort` produces this ordering. -/
def sortDevicesByName (l : List String) : List String := l.foldr insertDevice []

/-- Modelled from the spec: `is_number` (declared in `basic.hpp`, whose
source is not part of this snapshot) decides whether a selector string is
"a non-negative integer (index)" rather than a free-text substring. -/
def is_number (s : String) : Bool := s ≠ "" && s.data.all Char.isDigit

/-- Modelled from the spec: `str_to<int>` on a selector already validated
by `is_number`, i.e. plain decimal parsing. -/
def str_to (s : String) : Nat :=
  s.data.foldl (fun n c => n * 10 + (c.toNat - 48)) 0

/-- Model of `string::find(sub) != string::npos`: `sub` occurs as a contiguous
substring of `name` (the empty string occurs in every name). -/
def containsSub (name sub : String) : Bool :=
  (List.range (name.data.length + 1)).any (fun i => sub.data.isPrefixOf (name.data.drop i))

/-- One listing line: `"    [" << i << "] " << name` plus the
`" [Selected]"` mark when the loop selected this entry. -/
def listingLine (i : Nat) (name : String) (sel : Bool) : String :=
  "    [" ++ toString i ++ "] " ++ name ++ (if sel then " [Selected]" else "")

/-- The device listing/selection loop of `OpenCLBasic::selectDevice`
(oclobject.cpp:259-308).  Arguments: `by_index` and sentinel `n` (the
device count), the required subname, the remaining names with the current
index `i`, and the running `selected_device_index`.  Returns the printed
lines and the final `selected_device_index`. -/
def deviceLoop (by_index : Bool) (sub : String) (n : Nat) :
    List String → Nat → Nat → List String × Nat
  | [], _, selected => ([], selected)
  | name :: rest, i, selected =>
    let hit := (by_index && selected == i) ||
               (!by_index && containsSub name sub && selected == n)
    let selected1 := if hit then i else selected
    let (ls, fin) := deviceLoop by_index sub n rest (i + 1) selected1
    (listingLine i name hit :: ls, fin)

/-- Model of `OpenCLBasic::selectDevice` (oclobject.cpp:198-331), modelled on the
name list returned by the (type-filtered) driver enumeration.  When more
than one device is enumerated the list is first sorted with `device_comp`;
then the listing loop resolves the selector, by index when
`is_number(device_name_or_index)`, else by first substring match; finally
an out-of-range index or a missing match raises the respective error,
otherwise the device at the selected index is returned.  The returned
lines are the header plus one line per device. -/
def selectDevice (enumerated : List String) (device_type : Nat)
    (device_type_name : String) (device_name_or_index : String) :
    List String × Except String String :=
  let devices := if enumerated.length > 1 then sortDevicesByName enumerated else enumerated
  let n := devices.length
  let by_index := is_number device_name_or_index
  let selected0 := if by_index then str_to device_name_or_index else n
  let header := "Devices (" ++ toString n ++
    (if device_type ≠ CL_DEVICE_TYPE_ALL then "; filtered by type " ++ device_type_name
     else "") ++ "):"
  let (lines, sel) := deviceLoop by_index device_name_or_index n devices 0 selected0
  if by_index ∧ sel ≥ n then
    (header :: lines,
     .error ("Given index of device (" ++ device_name_or_index ++
       ") is out of range of available devices" ++
       (if device_type ≠ CL_DEVICE_TYPE_ALL then
          " (among devices of type " ++ device_type_name ++ ")" else "")))
  else if ¬ by_index ∧ sel ≥ n then
    (header :: lines,
     .error ("There is no found device with name containing \"" ++
       device_name_or_index ++ "\" as a substring\n"))
  else
    (header :: lines, .ok ((devices.drop sel).headD ""))

/-- The platform listing/selection loop of `selectPlatform`
(oclobject.cpp:115-159).  Its marking condition differs from the device
loop: `selected == i || (name.find(sub) != npos && selected == n)`. -/
def platformLoop (sub : String) (n : Nat) :
    List String → Nat → Nat → List String × Nat
  | [], _, selected => ([], selected)
  | name :: rest, i, selected =>
    let hit := selected == i || (containsSub name sub && selected == n)
    let selected1 := if hit then i else selected
    let (ls, fin) := platformLoop sub n rest (i + 1) selected1
    (listingLine i name hit :: ls, fin)

/-- Model of `selectPlatform` (oclobject.cpp:82-178) on the enumerated platform
names: index selection when the selector `is_number`, else first
substring match, with the two distinct errors of the source. -/
def selectPlatform (enumerated : List String) (platform_name_or_index : String) :
    List String × Except String Nat :=
  let n := enumerated.length
  let by_index := is_number platform_name_or_index
  let selected0 := if by_index then str_to platform_name_or_index else n
  let header := "Platforms (" ++ toString n ++ "):"
  let (lines, sel) := platformLoop platform_name_or_index n enumerated 0 selected0
  if by_index ∧ sel ≥ n then
    (header :: lines,
     .error ("Given index of platform (" ++ platform_name_or_index ++
       ") is out of range of available platforms"))
  else if ¬ by_index ∧ sel ≥ n then
    (header :: lines,
     .error ("There is no found platform with name containing \"" ++
       platform_name_or_index ++ "\" as a substring\n"))
  else
    (header :: lines, .ok sel)

example :
    selectDevice ["Alpha", "Beta"] CL_DEVICE_TYPE_GPU "gpu" "" =
      (["Devices (2; filtered by type gpu):",
        "    [0] Beta [Selected]",
        "    [1] Alpha"], .ok "Beta") := by rfl

example :
    selectPlatform ["MockPlatform"] "0" =
      (["Platforms (1):", "    [0] MockPlatform [Selected]"], .ok 0) := by rfl

/-! ### Sorting facts for `sortDevicesByName` -/

lemma mem_insertDevice {a x : String} : ∀ {l : List String},
    a ∈ insertDevice x l ↔ a = x ∨ a ∈ l
  | [] => by simp [insertDevice]
  | y :: ys => by
    by_cases hc : device_comp x y = true
    · simp [insertDevice, hc, List.mem_cons]
    · simp only [insertDevice, if_neg hc, List.mem_cons, mem_insertDevice (l := ys)]
      tauto

lemma insertDevice_perm (x : String) : ∀ l : List String,
    (insertDevice x l).Perm (x :: l)
  | [] => List.Perm.refl _
  | y :: ys => by
    by_cases hc : device_comp x y = true
    · simp [insertDevice, hc]
    · simpa [insertDevice, hc] using
        ((insertDevice_perm x ys).cons y).trans (List.Perm.swap x y ys)

lemma sortDevicesByName_perm : ∀ l : List String, (sortDevicesByName l).Perm l
  | [] => List.Perm.refl _
  | x :: xs =>
    (insertDevice_perm x (sortDevicesByName xs)).trans
      ((sortDevicesByName_perm xs).cons x)

lemma sorted_insertDevice {x : String} : ∀ {l : List String},
    l.Sorted (fun a b => ¬ nameLt a b) →
    (insertDevice x l).Sorted (fun a b => ¬ nameLt a b)
  | [], _ => List.sorted_singleton x
  | y :: ys, h => by
    rw [List.sorted_cons] at h
    obtain ⟨hy, hys⟩ := h
    by_cases hc : device_comp x y = true
    · have hyx : nameLt y x := of_decide_eq_true hc
      have hxy : ¬ nameLt x y := fun hxy =>
        (IsAsymm.asymm (r := List.Lex (· < ·)) _ _ hxy) hyx
      simp only [insertDevice, if_pos hc]
      rw [List.sorted_cons]
      refine ⟨?_, by rw [List.sorted_cons]; exact ⟨hy, hys⟩⟩
      intro b hb
      rcases List.mem_cons.mp hb with rfl | hb
      · exact hxy
      · intro hxb
        exact hy b hb (IsTrans.trans (r := List.Lex (· < ·)) _ _ _ hyx hxb)
    · have hyx : ¬ nameLt y x := fun hyx => hc (decide_eq_true hyx)
      simp only [insertDevice, if_neg hc]
      rw [List.sorted_cons]
      refine ⟨?_, sorted_insertDevice hys⟩
      intro b hb
      rcases mem_insertDevice.mp hb with rfl | hb
      · exact hyx
      · exact hy b hb

lemma sortDevicesByName_sorted : ∀ l : List String,
    (sortDevicesByName l).Sorted (fun a b => ¬ nameLt a b)
  | [] => List.sorted_nil
  | _ :: xs => sorted_insertDevice (sortDevicesByName_sorted xs)

/-! ## Program file loading (oclobject.cpp lines 465-567)

The file system is an oracle mapping a path to its byte content (when the
`ifstream` open succeeds).  `exe_dir` is the directory of the running
executable, as produced by `exe_dir()`/`exe_dir_w()` from `basic.hpp`.
Diagnostic output: `warnings` counts the `"[ WARNING ]"` messages written
to `cerr`, and `messages` records all `cerr` output in order. -/

/-- Model of `inquotes` from `basic.hpp`: wrap a path in double quotes. -/
def inquotes (s : String) : String := "\"" ++ s ++ "\""

structure ReadFileOut where
  result : Except String (List Char)
  warnings : Nat
  messages : List String

/-- The warning printed by `readFile` before the retry (oclobject.cpp:496-500). -/
def readFileWarning (file_name : String) : String :=
  "[ WARNING ] Unable to load OpenCL source code file " ++ inquotes file_name ++
  " at the default location.\nTrying to open the file from the directory with executable..."

/-- Model of `readFile` (oclobject.cpp:465-560): try the path as given; on
failure emit one warning and retry relative to the executable directory,
printing the resolved full path on success, or raising an error naming the
attempted path when the retry also fails. -/
def readFile (fs : String → Option (List Char)) (exe_dir file_name : String) :
    ReadFileOut :=
  match fs file_name with
  | some data => { result := .ok data, warnings := 0, messages := [] }
  | none =>
    match fs (exe_dir ++ file_name) with
    | some data =>
      { result := .ok data
        warnings := 1
        messages := [readFileWarning file_name, " OK",
          "Full file path is " ++ inquotes (exe_dir ++ file_name)] }
    | none =>
      { result := .error ("Cannot open file " ++ inquotes (exe_dir ++ file_name))
        warnings := 1
        messages := [readFileWarning file_name, " FAILED"] }

/-- Model of `readProgramFile` (oclobject.cpp:562-567): `readFile` plus one
terminating zero byte pushed after the raw bytes read. -/
def readProgramFile (fs : String → Option (List Char)) (exe_dir file_name : String) :
    ReadFileOut :=
  let r := readFile fs exe_dir file_name
  { r with result := r.result.map (· ++ [Char.ofNat 0]) }

/-- C8: the two-stage program-file lookup.  As-given success loads the raw
bytes with no warning; a failure at the given path followed by success at
the executable directory loads with exactly one warning and prints the
resolved full path; failure at both raises an error naming the attempted
path; and every loaded buffer carries exactly one appended zero byte. -/
theorem readProgramFile_two_stage_lookup
    (fs : String → Option (List Char)) (exe_dir file_name : String)
    (data : List Char) :
    (fs file_name = some data →
      readProgramFile fs exe_dir file_name =
        { result := .ok (data ++ [Char.ofNat 0]), warnings := 0, messages := [] }) ∧
    (fs file_name = none → fs (exe_dir ++ file_name) = some data →
      readProgramFile fs exe_dir file_name =
        { result := .ok (data ++ [Char.ofNat 0])
          warnings := 1
          messages := [readFileWarning file_name, " OK",
            "Full file path is " ++ inquotes (exe_dir ++ file_name)] }) ∧
    (fs file_name = none → fs (exe_dir ++ file_name) = none →
      readProgramFile fs exe_dir file_name =
        { result := .error ("Cannot open file " ++ inquotes (exe_dir ++ file_name))
          warnings := 1
          messages := [readFileWarning file_name, " FAILED"] }) := by
  refine ⟨fun h1 => ?_, fun h1 h2 => ?_, fun h1 h2 => ?_⟩
  · simp [readProgramFile, readFile, h1, Except.map]
  · simp [readProgramFile, readFile, h1, h2, Except.map]
  · simp [readProgramFile, readFile, h1, h2, Except.map]

/-- Mock file system for the C8 witness: only the executable-directory
copy of "kernel.cl" exists. -/
def fsMock (p : String) : Option (List Char) :=
  if p = "/exe/kernel.cl" then some "k".data else none

/-- Witness for C8: the concrete retry-success and double-failure cases. -/
theorem readProgramFile_two_stage_lookup_witness :
    readProgramFile fsMock "/exe/" "kernel.cl" =
      { result := .ok ("k".data ++ [Char.ofNat 0])
        warnings := 1
        messages := [readFileWarning "kernel.cl", " OK",
          "Full file path is " ++ inquotes ("/exe/" ++ "kernel.cl")] } ∧
    readProgramFile fsMock "/other/" "kernel.cl" =
      { result := .error ("Cannot open file " ++ inquotes ("/other/" ++ "kernel.cl"))
        warnings := 1
        messages := [readFileWarning "kernel.cl", " FAILED"] } :=
  ⟨(readProgramFile_two_stage_lookup fsMock "/exe/" "kernel.cl" "k".data).2.1 rfl rfl,
   (readProgramFile_two_stage_lookup fsMock "/other/" "kernel.cl" "k".data).2.2 rfl rfl⟩

/-! ## Program construction and build (oclobject.cpp lines 569-668) -/

def CL_SUCCESS : Int := 0
def CL_BUILD_PROGRAM_FAILURE : Int := -11

/-- Error text produced by `SAMPLE_CHECK_ERRORS` for a failing OpenCL
call, keyed by the raw error code. -/
def sampleCheckMsg (err : Int) : String := "OpenCL error code is " ++ toString err

/-- Fixed header of the error thrown on a build failure
(oclobject.cpp:613-617). -/
def buildFailureHeader : String :=
  "Error happened during the build of OpenCL program.\nBuild log:\n"

/-- Model of `createAndBuildProgram` (oclobject.cpp:569-624).  Devices are
opaque ids; `build_err` is the result of `clBuildProgram` and `build_log`
the oracle behind `clGetProgramBuildInfo(CL_PROGRAM_BUILD_LOG)` (its own
error checking assumed successful).  When `build_err` is
`CL_BUILD_PROGRAM_FAILURE` the device loop fetches the first device's
build log and throws with the header plus that log; the loop body never
reaches a second device.  The second component records which devices had
their build logs fetched. -/
def createAndBuildProgram (devices : List Nat) (build_err : Int)
    (build_log : Nat → String) : Except String Unit × List Nat :=
  if build_err = CL_BUILD_PROGRAM_FAILURE then
    match devices with
    | [] => (.error (sampleCheckMsg build_err), [])
    | d :: _ => (.error (buildFailureHeader ++ build_log d), [d])
  else if build_err = CL_SUCCESS then (.ok (), [])
  else (.error (sampleCheckMsg build_err), [])

/-- C2 (amended): on `CL_BUILD_PROGRAM_FAILURE` the builder fetches the
build log of the *first* target device only and raises an error whose
payload is the fixed header "Error happened during the build of OpenCL
program.\nBuild log:\n" followed by that build log verbatim. -/
theorem createAndBuildProgram_header_and_first_log
    (d : Nat) (rest : List Nat) (build_log : Nat → String) :
    createAndBuildProgram (d :: rest) CL_BUILD_PROGRAM_FAILURE build_log =
      (.error (buildFailureHeader ++ build_log d), [d]) := rfl

/-- Witness for C2 at a concrete single-device input with a canned log. -/
theorem createAndBuildProgram_header_and_first_log_witness :
    createAndBuildProgram [1] CL_BUILD_PROGRAM_FAILURE (fun _ => "canned build log") =
      (.error (buildFailureHeader ++ "canned build log"), [1]) :=
  createAndBuildProgram_header_and_first_log 1 [] (fun _ => "canned build log")

/-- C2 counterexample: with one target device whose canned build log is
"canned build log", the raised error's payload is the header plus the log,
which is *not* equal to the canned string exactly; and with two failing
devices only the first device's log is fetched. -/
theorem createAndBuildProgram_payload_not_bare_log :
    (createAndBuildProgram [1] (-11) (fun _ => "canned build log")).1 =
      .error (buildFailureHeader ++ "canned build log") ∧
    buildFailureHeader ++ "canned build log" ≠ "canned build log" ∧
    (createAndBuildProgram [1, 2] (-11) (fun d => if d = 1 then "log one" else "log two")).2
      = [1] ∧
    ([1] : List Nat) ≠ [1, 2] :=
  ⟨rfl, by decide, rfl, by decide⟩

/-- Model of the `OpenCLProgram` constructor (oclobject.cpp:626-668).  The
two mutual-exclusivity checks run before anything else; only then is the
program text prepared (from the file oracle or from the inline text plus
a terminating zero) and handed to the build step, here an oracle standing
for `createAndBuildProgram`. -/
def openCLProgramConstruct (program_file_name program_text : String)
    (readProgram : String → Except String (List Char))
    (build : List Char → Except String Nat) : Except String Nat :=
  if program_file_name ≠ "" ∧ program_text ≠ "" then
    .error ("Both program file name and program text are specified. " ++
      "Should be one of them only.")
  else if program_file_name = "" ∧ program_text = "" then
    .error ("Neither of program file name or program text are specified. " ++
      "One of them is required.")
  else do
    let prepared ←
      if program_file_name ≠ "" then readProgram program_file_name
      else .ok (program_text.data ++ [Char.ofNat 0])
    build prepared

/-- C9: specifying both a file name and inline text, or neither, raises
the configuration error at construction time, before any read or build
step runs — the result is this error for *every* reader and builder
oracle. -/
theorem openCLProgramConstruct_exclusive_inputs
    (f t : String) (hf : f ≠ "") (ht : t ≠ "")
    (readProgram : String → Except String (List Char))
    (build : List Char → Except String Nat) :
    openCLProgramConstruct f t readProgram build =
      .error ("Both program file name and program text are specified. " ++
        "Should be one of them only.") ∧
    openCLProgramConstruct "" "" readProgram build =
      .error ("Neither of program file name or program text are specified. " ++
        "One of them is required.") := by
  constructor
  · simp [openCLProgramConstruct, hf, ht]
  · rfl

/-- Witness for C9 at concrete inputs and oracles. -/
theorem openCLProgramConstruct_exclusive_inputs_witness :
    openCLProgramConstruct "kernel.cl" "kernel code"
        (fun _ => .ok []) (fun _ => .ok 0) =
      .error ("Both program file name and program text are specified. " ++
        "Should be one of them only.") ∧
    openCLProgramConstruct "" "" (fun _ => .ok []) (fun _ => .ok 0) =
      .error ("Neither of program file name or program text are specified. " ++
        "One of them is required.") :=
  openCLProgramConstruct_exclusive_inputs "kernel.cl" "kernel code"
    (by decide) (by decide) (fun _ => .ok []) (fun _ => .ok 0)

/-! ## Performance accounting of the render loop (OpenGLInterop.cpp 472-553)

Durations are modelled as exact rationals; the claims under study concern
the windowing, averaging and reset logic, not floating-point rounding. -/

/-- Constant `g_iterations_num` (OpenGLInterop.cpp:90). -/
def g_iterations_num : Nat := 255

/-- The rolling counters `g_iteration`, `g_overall_fps`,
`g_full_update_time`, `g_kernel_time`, `g_render_time`
(OpenGLInterop.cpp:83-88). -/
structure PerfState where
  iteration : Nat
  overall_fps : ℚ
  full_update_time : ℚ
  kernel_time : ℚ
  render_time : ℚ
deriving DecidableEq

/-- Model of `ResetCounters` (OpenGLInterop.cpp:472-479). -/
def resetCounters : PerfState := ⟨0, 0, 0, 0, 0⟩

/-- The averages printed by one report of `Render`
(OpenGLInterop.cpp:539-544), in seconds (the printout scales by 1000 for
milliseconds): interop overhead `(g_full_update_time - g_kernel_time) /
g_iterations_num`, kernel `g_kernel_time / g_iterations_num` and render
`g_render_time / g_iterations_num`. -/
structure PerfReport where
  overhead_avg : ℚ
  kernel_avg : ℚ
  render_avg : ℚ
deriving DecidableEq

/-- The durations measured during one frame: kernel time (accumulated
inside `CallCLKernel`), the whole update duration, the render duration
and the frame's fps sample. -/
structure FrameTimes where
  kernel : ℚ
  update : ℚ
  render : ℚ
  fps : ℚ

/-- Model of one `Render` call's counter behaviour
(OpenGLInterop.cpp:482-553): accumulate the frame's durations, then
`if (g_iteration++ == g_iterations_num)` either report the averages and
`ResetCounters()`, or increment `g_iteration` and accumulate the fps
sample. -/
def renderStep (s : PerfState) (f : FrameTimes) : PerfState × Option PerfReport :=
  let s1 : PerfState :=
    { s with kernel_time := s.kernel_time + f.kernel
             full_update_time := s.full_update_time + f.update
             render_time := s.render_time + f.render }
  if s1.iteration = g_iterations_num then
    (resetCounters,
     some { overhead_avg := (s1.full_update_time - s1.kernel_time) / (g_iterations_num : ℚ)
            kernel_avg := s1.kernel_time / (g_iterations_num : ℚ)
            render_avg := s1.render_time / (g_iterations_num : ℚ) })
  else
    ({ s1 with iteration := s1.iteration + 1, overall_fps := s1.overall_fps + f.fps },
     none)

/-- Iterated `Render` calls, collecting the emitted reports in order. -/
def runFrames : PerfState → List FrameTimes → PerfState × List PerfReport
  | s, [] => (s, [])
  | s, f :: fs =>
    let p := renderStep s f
    let q := runFrames p.1 fs
    (q.1, p.2.toList ++ q.2)

def kerSum (fs : List FrameTimes) : ℚ := (fs.map FrameTimes.kernel).sum
def updSum (fs : List FrameTimes) : ℚ := (fs.map FrameTimes.update).sum
def renSum (fs : List FrameTimes) : ℚ := (fs.map FrameTimes.render).sum

lemma runFrames_cons (s : PerfState) (f : FrameTimes) (fs : List FrameTimes) :
    runFrames s (f :: fs) =
      ((runFrames (renderStep s f).1 fs).1,
       (renderStep s f).2.toList ++ (runFrames (renderStep s f).1 fs).2) := rfl

lemma renderStep_not_full {s : PerfState} (f : FrameTimes)
    (h : s.iteration ≠ g_iterations_num) :
    renderStep s f =
      ({ iteration := s.iteration + 1
         overall_fps := s.overall_fps + f.fps
         full_update_time := s.full_update_time + f.update
         kernel_time := s.kernel_time + f.kernel
         render_time := s.render_time + f.render }, none) := by
  simp [renderStep, h]

lemma renderStep_full {s : PerfState} (f : FrameTimes)
    (h : s.iteration = g_iterations_num) :
    renderStep s f =
      (resetCounters,
       some { overhead_avg := (s.full_update_time + f.update -
                (s.kernel_time + f.kernel)) / (g_iterations_num : ℚ)
              kernel_avg := (s.kernel_time + f.kernel) / (g_iterations_num : ℚ)
              render_avg := (s.render_time + f.render) / (g_iterations_num : ℚ) }) := by
  simp [renderStep, h]

lemma runFrames_no_report : ∀ (fs : List FrameTimes) (s : PerfState),
    s.iteration + fs.length ≤ g_iterations_num →
    (runFrames s fs).2 = [] ∧
    (runFrames s fs).1.iteration = s.iteration + fs.length
  | [], _, _ => ⟨rfl, rfl⟩
  | f :: fs, s, h => by
    have hlen : s.iteration + fs.length + 1 ≤ g_iterations_num := by
      simp only [List.length_cons] at h
      omega
    have hne : s.iteration ≠ g_iterations_num := by omega
    have ih := runFrames_no_report fs
      { iteration := s.iteration + 1
        overall_fps := s.overall_fps + f.fps
        full_update_time := s.full_update_time + f.update
        kernel_time := s.kernel_time + f.kernel
        render_time := s.render_time + f.render }
      (by simp only [List.length_cons]; omega)
    rw [runFrames_cons, renderStep_not_full f hne]
    refine ⟨by simpa using ih.1, ?_⟩
    have h2 := ih.2
    simp only [List.length_cons]
    simp only at h2
    rw [h2]
    omega

lemma runFrames_window : ∀ (fs : List FrameTimes) (s : PerfState),
    s.iteration ≤ g_iterations_num →
    s.iteration + fs.length = g_iterations_num + 1 →
    runFrames s fs =
      (resetCounters,
       [{ overhead_avg := (s.full_update_time + updSum fs -
            (s.kernel_time + kerSum fs)) / (g_iterations_num : ℚ)
          kernel_avg := (s.kernel_time + kerSum fs) / (g_iterations_num : ℚ)
          render_avg := (s.render_time + renSum fs) / (g_iterations_num : ℚ) }])
  | [], s, hle, hlen => by
    exfalso
    simp only [List.length_nil, Nat.add_zero] at hlen
    omega
  | f :: fs, s, hle, hlen => by
    by_cases hfull : s.iteration = g_iterations_num
    · have hfs : fs = [] := by
        have : fs.length = 0 := by
          simp only [List.length_cons] at hlen
          omega
        exact List.eq_nil_of_length_eq_zero this
      subst hfs
      rw [runFrames_cons, renderStep_full f hfull]
      simp [runFrames, kerSum, updSum, renSum]
    · have hlen1 : s.iteration + fs.length + 1 = g_iterations_num + 1 := by
        simp only [List.length_cons] at hlen
        omega
      have ih := runFrames_window fs
        { iteration := s.iteration + 1
          overall_fps := s.overall_fps + f.fps
          full_update_time := s.full_update_time + f.update
          kernel_time := s.kernel_time + f.kernel
          render_time := s.render_time + f.render }
        (by simp only; omega) (by simp only; omega)
      rw [runFrames_cons, renderStep_not_full f hfull]
      simp only at ih
      rw [ih]
      simp only [Option.toList, List.nil_append, Prod.mk.injEq, List.cons.injEq,
        and_true, true_and, PerfReport.mk.injEq, kerSum, updSum, renSum,
        List.map_cons, List.sum_cons]
      refine ⟨?_, ?_, ?_⟩ <;> ring_nf

/-- C3 (amended): the performance report is produced once every
`g_iterations_num + 1 = 256` frames, not every 255: starting from freshly
reset counters, any run of at most 255 frames produces no report, and a
run of exactly 256 frames produces exactly one report whose running sums
cover all 256 frames elapsed since the reset, each divided by
`g_iterations_num = 255` (interop overhead reported as the full-update
sum minus the kernel sum, divided by 255), with every counter reset to
zero immediately after the report. -/
theorem render_report_window_256 (fs : List FrameTimes)
    (h : fs.length = g_iterations_num + 1) :
    runFrames resetCounters fs =
      (resetCounters,
       [{ overhead_avg := (updSum fs - kerSum fs) / (g_iterations_num : ℚ)
          kernel_avg := kerSum fs / (g_iterations_num : ℚ)
          render_avg := renSum fs / (g_iterations_num : ℚ) }]) ∧
    (∀ gs : List FrameTimes, gs.length ≤ g_iterations_num →
      (runFrames resetCounters gs).2 = []) := by
  constructor
  · have hw := runFrames_window fs resetCounters (by simp [resetCounters])
      (by simp [resetCounters, h])
    simpa [resetCounters] using hw
  · intro gs hgs
    exact (runFrames_no_report gs resetCounters
      (by simpa [resetCounters] using hgs)).1

/-- Witness for C3 at a run of 256 unit-time frames. -/
theorem render_report_window_256_witness :
    runFrames resetCounters (List.replicate (g_iterations_num + 1) ⟨1, 1, 1, 1⟩) =
      (resetCounters,
       [{ overhead_avg := 0, kernel_avg := 256 / 255, render_avg := 256 / 255 }]) := by
  have h := (render_report_window_256
    (List.replicate (g_iterations_num + 1) ⟨1, 1, 1, 1⟩) (by simp)).1
  rw [h]
  norm_num [kerSum, updSum, renSum, List.map_replicate, List.sum_replicate,
    g_iterations_num]

/-- C3 counterexample: with unit kernel/update/render times, the 255
frames following a reset produce no report at all, and the report that
appears on frame 256 averages 256 frames of sums over 255, giving a
kernel average of 256/255 rather than the exact per-frame value 1. -/
theorem render_no_report_at_255_frames :
    (runFrames resetCounters (List.replicate g_iterations_num ⟨1, 1, 1, 1⟩)).2 = [] ∧
    (runFrames resetCounters (List.replicate (g_iterations_num + 1) ⟨1, 1, 1, 1⟩)).2 =
      [{ overhead_avg := 0, kernel_avg := 256 / 255, render_avg := 256 / 255 }] ∧
    (256 : ℚ) / 255 ≠ 1 := by
  refine ⟨(runFrames_no_report _ resetCounters (by simp [resetCounters])).1, ?_, by norm_num⟩
  have h := runFrames_window (List.replicate (g_iterations_num + 1) ⟨1, 1, 1, 1⟩)
    resetCounters (by simp [resetCounters]) (by simp [resetCounters])
  rw [h]
  norm_num [kerSum, updSum, renSum, List.map_replicate, List.sum_replicate,
    resetCounters, g_iterations_num]

/-! ## Per-frame interop protocol and mode switching (OpenGLInterop.cpp)

The graphics/compute API calls issued by the update functions are
recorded as an event trace; the session state tracks the active mode and
which of `g_mem` (the compute memory object) and `g_pbo` (the auxiliary
pixel-buffer object) are currently allocated. -/

/-- Enum `INTEROP_MODE` (OpenGLInterop.cpp:37-56). -/
inductive INTEROP_MODE
  | eModeBufferMap
  | eModeBufferPBO
  | eModeTexture
deriving DecidableEq

/-- The API calls observable in the per-frame update and mode-switch
paths. -/
inductive IEvent
  | glFinish
  | clFinishQ
  | setKernelArg
  | enqueueKernel (image : Bool)
  | acquireGL
  | releaseGL
  | bindBuffer
  | bindTexture
  | texSubImage
  | mapBuffer
  | unmapBuffer
  | createBuffer
  | enqueueMapBuffer
  | enqueueUnmapMem
  | releaseMemObject
  | genBuffers
  | createFromGLTexture
  | createFromGLBuffer
  | deleteBuffers
  | warning
deriving DecidableEq

/-- Session state: the active mode, whether `g_mem` and `g_pbo` are
non-null, and the rolling performance counters. -/
structure GLSession where
  mode : INTEROP_MODE
  memAlloc : Bool
  pboAlloc : Bool
  perf : PerfState

/-- Model of `CallCLKernel` (OpenGLInterop.cpp:355-380): two kernel-arg
bindings, a kernel dispatch (the image kernel over a 2D range in texture
mode, the buffer kernel over a 1D range otherwise), then a blocking
`clFinish` on the queue. -/
def callCLKernel (mode : INTEROP_MODE) : List IEvent :=
  [.setKernelArg, .setKernelArg,
   .enqueueKernel (decide (mode = .eModeTexture)), .clFinishQ]

/-- Model of `UpdateGLObjectTexture` (OpenGLInterop.cpp:382-403):
`glFinish` only when implicit sync is not available, acquire, kernel
call, release, and `clFinish` only when implicit sync is not
available. -/
def updateGLObjectTexture (implicitSync : Bool) : List IEvent :=
  (if implicitSync then [] else [.glFinish]) ++
  [.acquireGL] ++ callCLKernel .eModeTexture ++ [.releaseGL] ++
  (if implicitSync then [] else [.clFinishQ])

/-- Model of `UpdateGLObjectBuffer` (OpenGLInterop.cpp:405-431): the same
bracket as the texture path, followed by the staging transfer
(`glBindBuffer`, `glBindTexture`, `glTexSubImage2D`, `glBindBuffer 0`). -/
def updateGLObjectBuffer (implicitSync : Bool) : List IEvent :=
  (if implicitSync then [] else [.glFinish]) ++
  [.acquireGL] ++ callCLKernel .eModeBufferPBO ++ [.releaseGL] ++
  (if implicitSync then [] else [.clFinishQ]) ++
  [.bindBuffer, .bindTexture, .texSubImage, .bindBuffer]

/-- Model of `UpdateGLObjectMap` (OpenGLInterop.cpp:433-470) on the
success path of the API calls: map the pixel buffer, warn (only) when the
mapped pointer fails the zero-copy validation, wrap the pointer in a
fresh compute buffer (`g_mem` becomes non-null), run the kernel, force
the host mirror update via `clEnqueueMapBuffer`/`clEnqueueUnmapMemObject`,
release the wrapper (`g_mem = 0`), then unmap and update the texture.
Returns the `BOOL` result of the function (TRUE on this path), the new
session state and the trace. -/
def updateGLObjectMap (s : GLSession) (zeroCopyOk : Bool) :
    Bool × GLSession × List IEvent :=
  let s1 : GLSession := { s with memAlloc := true }
  let s2 : GLSession := { s1 with memAlloc := false }
  (true, s2,
   [.bindBuffer, .mapBuffer] ++
   (if zeroCopyOk then [] else [.warning]) ++
   [.createBuffer] ++ callCLKernel .eModeBufferMap ++
   [.enqueueMapBuffer, .enqueueUnmapMem, .releaseMemObject,
    .unmapBuffer, .bindTexture, .texSubImage, .bindBuffer])

/-- Model of `CreateGLObject` (OpenGLInterop.cpp:255-270): the two
buffer-based modes create the pixel-buffer object; texture mode needs
none. -/
def createGLObject (s : GLSession) : GLSession × List IEvent :=
  if s.mode ≠ .eModeTexture then ({ s with pboAlloc := true }, [.genBuffers])
  else (s, [])

/-- Model of `CreateCLMemObject` (OpenGLInterop.cpp:124-146): texture mode
wraps the texture, PBO mode wraps the buffer, map mode creates nothing
persistent. -/
def createCLMemObject (s : GLSession) : GLSession × List IEvent :=
  match s.mode with
  | .eModeTexture => ({ s with memAlloc := true }, [.createFromGLTexture])
  | .eModeBufferPBO => ({ s with memAlloc := true }, [.createFromGLBuffer])
  | .eModeBufferMap => (s, [])

/-- The `VK_TAB` mode cycle (OpenGLInterop.cpp:632-637):
Texture → BufferPBO → BufferMap → Texture. -/
def nextMode : INTEROP_MODE → INTEROP_MODE
  | .eModeTexture => .eModeBufferPBO
  | .eModeBufferPBO => .eModeBufferMap
  | .eModeBufferMap => .eModeTexture

/-- Model of the `VK_TAB` handler in `WndProc` (OpenGLInterop.cpp:629-650):
advance the mode, release `g_mem` if allocated, delete `g_pbo` if
allocated, `CreateGLObject`, `CreateCLMemObject`, `ResetCounters`. -/
def modeSwitch (s : GLSession) : GLSession × List IEvent :=
  let s0 : GLSession := { s with mode := nextMode s.mode }
  let r1 : GLSession × List IEvent :=
    if s0.memAlloc then ({ s0 with memAlloc := false }, [.releaseMemObject])
    else (s0, [])
  let r2 : GLSession × List IEvent :=
    if r1.1.pboAlloc then ({ r1.1 with pboAlloc := false }, [.deleteBuffers])
    else (r1.1, [])
  let r3 := createGLObject r2.1
  let r4 := createCLMemObject r3.1
  ({ r4.1 with perf := resetCounters }, r1.2 ++ r2.2 ++ r3.2 ++ r4.2)

def isReleaseEvent : IEvent → Bool
  | .releaseMemObject => true
  | .deleteBuffers => true
  | _ => false

def isCreateEvent : IEvent → Bool
  | .genBuffers => true
  | .createFromGLTexture => true
  | .createFromGLBuffer => true
  | _ => false

def isDispatch : IEvent → Bool
  | .enqueueKernel _ => true
  | _ => false

/-- Spec-side well-bracketing predicate for one frame trace under the
implicit-sync flag `b`: a single graphics-side finish strictly before the
acquire exactly when `b` is false; unique acquire, dispatch and release
with acquire < dispatch < release; the dispatch immediately followed by a
blocking queue finish; and a compute-side finish after the release
exactly when `b` is false. -/
def bracketOrdered (tr : List IEvent) (b : Bool) : Bool :=
  let ai := tr.findIdx (· == IEvent.acquireGL)
  let di := tr.findIdx isDispatch
  let ri := tr.findIdx (· == IEvent.releaseGL)
  (tr.count IEvent.acquireGL == 1) &&
  (tr.count IEvent.releaseGL == 1) &&
  (tr.countP isDispatch == 1) &&
  (if b then tr.count IEvent.glFinish == 0
   else (tr.count IEvent.glFinish == 1) &&
     decide (tr.findIdx (· == IEvent.glFinish) < ai)) &&
  decide (ai < di) && decide (di < ri) &&
  (tr.get? (di + 1) == some IEvent.clFinishQ) &&
  (if b then (tr.drop (ri + 1)).count IEvent.clFinishQ == 0
   else (tr.drop (ri + 1)).count IEvent.clFinishQ == 1)

/-- C4: in Texture and BufferPBO modes, each per-frame update is
well-bracketed for either value of the implicit-sync capability flag:
graphics finish iff the flag is false, then acquire, then the kernel
dispatch followed by a blocking queue finish, then release, then a
compute finish iff the flag is false; the dispatch always lies strictly
inside the acquire/release bracket. -/
theorem update_texture_buffer_bracket (b : Bool) :
    bracketOrdered (updateGLObjectTexture b) b = true ∧
    bracketOrdered (updateGLObjectBuffer b) b = true := by
  cases b <;> exact ⟨by decide, by decide⟩

/-- Witness for C4 at the explicit-sync value of the flag. -/
theorem update_texture_buffer_bracket_witness :
    bracketOrdered (updateGLObjectTexture false) false = true ∧
    bracketOrdered (updateGLObjectBuffer false) false = true :=
  update_texture_buffer_bracket false

/-- C5: every mode switch resets all rolling performance counters to
zero, leaves the compute memory object allocated exactly for the two
persistent modes (Texture, BufferPBO) and the auxiliary pixel buffer
allocated exactly for the two buffer-based modes, and its trace performs
all release/destroy calls strictly before all create calls. -/
theorem modeSwitch_lifecycle (s : GLSession) :
    (modeSwitch s).1.perf = resetCounters ∧
    (modeSwitch s).1.mode = nextMode s.mode ∧
    (modeSwitch s).1.memAlloc = decide (nextMode s.mode ≠ .eModeBufferMap) ∧
    (modeSwitch s).1.pboAlloc = decide (nextMode s.mode ≠ .eModeTexture) ∧
    ((modeSwitch s).2.dropWhile isReleaseEvent).all isCreateEvent = true ∧
    (modeSwitch s).2.all (fun e => isReleaseEvent e || isCreateEvent e) = true := by
  obtain ⟨mode, mem, pbo, perf⟩ := s
  cases mode <;> cases mem <;> cases pbo <;>
    exact ⟨rfl, rfl, rfl, rfl, rfl, rfl⟩

/-- Witness for C5 at a concrete session in texture mode. -/
theorem modeSwitch_lifecycle_witness :
    (modeSwitch ⟨.eModeTexture, true, false, resetCounters⟩).1.perf = resetCounters ∧
    (modeSwitch ⟨.eModeTexture, true, false, resetCounters⟩).1.mode =
      nextMode .eModeTexture ∧
    (modeSwitch ⟨.eModeTexture, true, false, resetCounters⟩).1.memAlloc =
      decide (nextMode .eModeTexture ≠ .eModeBufferMap) ∧
    (modeSwitch ⟨.eModeTexture, true, false, resetCounters⟩).1.pboAlloc =
      decide (nextMode .eModeTexture ≠ .eModeTexture) ∧
    ((modeSwitch ⟨.eModeTexture, true, false, resetCounters⟩).2.dropWhile
      isReleaseEvent).all isCreateEvent = true ∧
    (modeSwitch ⟨.eModeTexture, true, false, resetCounters⟩).2.all
      (fun e => isReleaseEvent e || isCreateEvent e) = true :=
  modeSwitch_lifecycle ⟨.eModeTexture, true, false, resetCounters⟩

/-- C6: a BufferMap frame whose mapped pointer fails the zero-copy
validation still completes successfully (the function returns TRUE, no
error path is taken) and emits exactly one zero-copy-degradation warning
in its trace. -/
theorem updateGLObjectMap_degrades_with_one_warning (s : GLSession) :
    (updateGLObjectMap s false).1 = true ∧
    (updateGLObjectMap s false).2.2.count IEvent.warning = 1 ∧
    (updateGLObjectMap s true).2.2.count IEvent.warning = 0 :=
  ⟨rfl, rfl, rfl⟩

/-- Witness for C6 at a concrete BufferMap session. -/
theorem updateGLObjectMap_degrades_with_one_warning_witness :
    (updateGLObjectMap ⟨.eModeBufferMap, false, true, resetCounters⟩ false).1 = true ∧
    (updateGLObjectMap ⟨.eModeBufferMap, false, true, resetCounters⟩
      false).2.2.count IEvent.warning = 1 ∧
    (updateGLObjectMap ⟨.eModeBufferMap, false, true, resetCounters⟩
      true).2.2.count IEvent.warning = 0 :=
  updateGLObjectMap_degrades_with_one_warning ⟨.eModeBufferMap, false, true, resetCounters⟩

/-- C10: every BufferMap frame releases the per-frame wrapper and nulls
`g_mem` before the graphics buffer is unmapped and the texture updated
(the single `releaseMemObject` precedes `unmapBuffer`, which precedes
`texSubImage`); the frame leaves `g_mem` null regardless of the inputs;
a mode switch out of BufferMap from such a state performs no
`releaseMemObject`; and a switch into BufferMap (from BufferPBO) leaves
`g_mem` null. -/
theorem updateGLObjectMap_wrapper_lifetime (s t u : GLSession) (ok : Bool)
    (hmode : t.mode = .eModeBufferMap) (hmem : t.memAlloc = false)
    (hu : u.mode = .eModeBufferPBO) :
    (updateGLObjectMap s ok).2.1.memAlloc = false ∧
    ((updateGLObjectMap s ok).2.2.findIdx (· == IEvent.releaseMemObject) <
      (updateGLObjectMap s ok).2.2.findIdx (· == IEvent.unmapBuffer) ∧
     (updateGLObjectMap s ok).2.2.findIdx (· == IEvent.unmapBuffer) <
      (updateGLObjectMap s ok).2.2.findIdx (· == IEvent.texSubImage) ∧
     (updateGLObjectMap s ok).2.2.count IEvent.releaseMemObject = 1) ∧
    IEvent.releaseMemObject ∉ (modeSwitch t).2 ∧
    (modeSwitch u).1.memAlloc = false := by
  obtain ⟨tm, tme, tpb, tpe⟩ := t
  obtain ⟨um, ume, upb, upe⟩ := u
  simp only at hmode hmem hu
  subst hmode hmem hu
  refine ⟨rfl, ?_, ?_, ?_⟩
  · cases ok <;> exact ⟨of_decide_eq_true rfl, of_decide_eq_true rfl, rfl⟩
  · cases tpb <;> simp [modeSwitch, createGLObject, createCLMemObject, nextMode]
  · cases ume <;> cases upb <;> rfl

/-- Witness for C10 at concrete sessions and both flag values. -/
theorem updateGLObjectMap_wrapper_lifetime_witness :
    (updateGLObjectMap ⟨.eModeBufferMap, false, true, resetCounters⟩ false).2.1.memAlloc
      = false ∧
    IEvent.releaseMemObject ∉
      (modeSwitch ⟨.eModeBufferMap, false, true, resetCounters⟩).2 ∧
    (modeSwitch ⟨.eModeBufferPBO, true, true, resetCounters⟩).1.memAlloc = false := by
  have h := updateGLObjectMap_wrapper_lifetime
    ⟨.eModeBufferMap, false, true, resetCounters⟩
    ⟨.eModeBufferMap, false, true, resetCounters⟩
    ⟨.eModeBufferPBO, true, true, resetCounters⟩ false rfl rfl rfl
  exact ⟨h.1, h.2.2.1, h.2.2.2⟩

/-- C1 (amended).  `selectDevice` sorts multi-device lists by name in
*descending* order (the `device_comp` comparator returns
`strcmp(name1,name2) > 0`) before selector resolution; in the mock
scenario of one platform and GPU devices "Alpha" and "Beta" with platform
index "0", device type "gpu" and an empty device substring, the sorted
order is Beta, Alpha; device "Beta" is selected, both device names are
printed, and "Beta" is the one marked "[Selected]". -/
theorem selectDevice_sorts_descending_and_mock_selects_Beta :
    (∀ l : List String, (sortDevicesByName l).Perm l ∧
        (sortDevicesByName l).Sorted (fun a b => ¬ nameLt a b)) ∧
    (selectPlatform ["MockPlatform"] "0").2 = .ok 0 ∧
    selectDevice ["Alpha", "Beta"] CL_DEVICE_TYPE_GPU "gpu" "" =
      (["Devices (2; filtered by type gpu):",
        "    [0] Beta [Selected]",
        "    [1] Alpha"], .ok "Beta") :=
  ⟨fun l => ⟨sortDevicesByName_perm l, sortDevicesByName_sorted l⟩, rfl, rfl⟩

/-- C1 counterexample: on the claim's own mock input the code sorts the
two names to Beta, Alpha (descending, not ascending) and selects and
marks "Beta", not "Alpha". -/
theorem selectDevice_mock_does_not_select_Alpha :
    sortDevicesByName ["Alpha", "Beta"] = ["Beta", "Alpha"] ∧
    (selectDevice ["Alpha", "Beta"] CL_DEVICE_TYPE_GPU "gpu" "").2 = .ok "Beta" ∧
    (selectDevice ["Alpha", "Beta"] CL_DEVICE_TYPE_GPU "gpu" "").2 ≠ .ok "Alpha" ∧
    (selectDevice ["Alpha", "Beta"] CL_DEVICE_TYPE_GPU "gpu" "").1 =
      ["Devices (2; filtered by type gpu):",
       "    [0] Beta [Selected]",
       "    [1] Alpha"] :=
  ⟨rfl, rfl, fun h => absurd (Except.ok.inj h) (by decide), rfl⟩

